import Mathlib

/-!
Shallow embedding of the GPU benchmarking harness
(`src/GPU Benchmark/src`): the metric data model and summary statistics
(`benchmark/automatedTest.ts`), the orchestrator loop
(`AutomatedBenchmark.run` / `runSingleTest`), the two GPU timer variants
(`metrics/gpuTimerGPU.ts`: the polling-query `WebGLGpuTimer` and the
timestamp-resolve `WebGPUGpuTimer`), and the CSV export
(`metrics/exportCsv.ts`).

JavaScript numbers are modelled as `ℚ`: every arithmetic step the claims
depend on (sums, divisions, comparisons, `x / 1e6` conversions) is exact
at the inputs under consideration, and `Math.floor(n * 0.95)` agrees with
`⌊(n : ℚ) * 95/100⌋` for every attainable array length `n` (the double
nearest 0.95 is below 0.95 by a relative error < 2⁻⁵³/2, so the rounded
product never crosses an integer boundary).  GPU handles are modelled as
allocator-issued `Nat` ids.  Wall-clock readings (`performance.now()`,
`Date.now()`) and driver replies (`getQueryParameter`, buffer maps) are
supplied by explicit environment records.
-/

namespace GpuBench

/-- Per-frame sample record, from `src/types.ts` (`Metrics`).  `gpu_ms` is
nullable; `draw_calls`/`triangles` are optional fields. -/
structure Metric where
  frame : Nat
  timestamp : Nat
  api : String
  scene : String
  fps : ℚ
  cpu_ms : ℚ
  gpu_ms : Option ℚ
  vram_mb : Nat
  draw_calls : Option Nat
  triangles : Option Nat
deriving DecidableEq

/-- Summary statistics of one test cell, from the `summary` field of
`TestResult` in `benchmark/automatedTest.ts`. -/
structure Summary where
  avgFps : ℚ
  minFps : ℚ
  maxFps : ℚ
  avgCpuMs : ℚ
  avgGpuMs : Option ℚ
  percentile95Fps : ℚ
  percentile99Fps : ℚ
deriving DecidableEq

/-- `Math.min(...xs)` for a non-empty argument list (the empty case, which
JavaScript maps to `Infinity`, is given an arbitrary value and is never
reached under the claims' non-emptiness hypotheses). -/
def jsMin : List ℚ → ℚ
  | [] => 0
  | x :: xs => xs.foldl min x

/-- `Math.max(...xs)` for a non-empty argument list (empty case as in
`jsMin`). -/
def jsMax : List ℚ → ℚ
  | [] => 0
  | x :: xs => xs.foldl max x

/-- `array.sort((a, b) => a - b)`: ascending stable sort of the fps
samples in `calculateSummary`. -/
def sortFpsAscending (l : List ℚ) : List ℚ :=
  List.insertionSort (fun a b => a ≤ b) l

/-- `Math.floor(n * 0.95)`, the 95th-percentile index used by
`calculateSummary`. -/
def p95Index (n : Nat) : Nat :=
  (⌊(n : ℚ) * (95 / 100)⌋).toNat

/-- `Math.floor(n * 0.99)`, the 99th-percentile index used by
`calculateSummary`. -/
def p99Index (n : Nat) : Nat :=
  (⌊(n : ℚ) * (99 / 100)⌋).toNat

/-- `AutomatedBenchmark.calculateSummary` (`automatedTest.ts`
lines 210–226).  `reduce((a, b) => a + b, 0)` is the list sum; division by
a zero length (JavaScript `NaN`) is ℚ's division by zero and is excluded
by the claims' non-emptiness hypotheses; `fpsSamples[i]` out of range
(JavaScript `undefined`) is modelled by `getD _ 0` and is in range for
every non-empty input. -/
def calculateSummary (metrics : List Metric) : Summary :=
  let fpsSamples := sortFpsAscending (metrics.map Metric.fps)
  let cpuSamples := metrics.map Metric.cpu_ms
  let gpuSamples := (metrics.map Metric.gpu_ms).reduceOption
  { avgFps := fpsSamples.sum / (fpsSamples.length : ℚ)
    minFps := jsMin fpsSamples
    maxFps := jsMax fpsSamples
    avgCpuMs := cpuSamples.sum / (cpuSamples.length : ℚ)
    avgGpuMs := if gpuSamples.length > 0 then
        some (gpuSamples.sum / (gpuSamples.length : ℚ))
      else none
    percentile95Fps := fpsSamples.getD (p95Index fpsSamples.length) 0
    percentile99Fps := fpsSamples.getD (p99Index fpsSamples.length) 0 }

/-- `BenchmarkConfig` from `benchmark/automatedTest.ts`.  Backend and scene
ids are strings (`RendererType`/`SceneType` are string unions in
`types.ts`); `duration` and `warmupTime` are in seconds. -/
structure BenchmarkConfig where
  renderers : List String
  scenes : List String
  duration : ℚ
  warmupTime : ℚ
  resolutions : List (Nat × Nat)

/-- `TestResult` from `benchmark/automatedTest.ts`. -/
structure TestResult where
  renderer : String
  scene : String
  resolution : Nat × Nat
  metrics : List Metric
  summary : Summary
deriving DecidableEq

/-- Renderer/browser readings consumed by one `animate` callback in
`runSingleTest`: `Date.now()`, the heap estimate of `getMemoryUsage`, and
the `renderer.info` counters, indexed by the frame counter. -/
structure FrameInfo where
  timestamp : Nat
  vram_mb : Nat
  draw_calls : Nat
  triangles : Nat

/-- Environment of one cell's frame loop: `lastTime0` is the
`performance.now()` read at line 129, `startTime` the one read at
line 182, `frames` the `performance.now()` values of the successive
`animate` callbacks, and `info` the per-frame renderer readings. -/
structure CellEnv where
  lastTime0 : ℚ
  startTime : ℚ
  frames : List ℚ
  info : Nat → FrameInfo

/-- The `Metric` literal built at lines 146–157 of `automatedTest.ts` for a
sampled frame.  The source sets `gpu_ms: null` unconditionally (line 153,
`// TODO: GPU timer integration`): no GPU timer is consulted. -/
def mkSampledMetric (api scene : String) (frameCount : Nat) (fi : FrameInfo)
    (delta : ℚ) : Metric :=
  { frame := frameCount
    timestamp := fi.timestamp
    api := api
    scene := scene
    fps := 1000 / delta
    cpu_ms := delta
    gpu_ms := none
    vram_mb := fi.vram_mb
    draw_calls := some fi.draw_calls
    triangles := some fi.triangles }

/-- The `animate` loop of `runSingleTest` (lines 133–184): warmup handling
via the `testStartTime = 0` sentinel, sampling every frame whose global
`frameCount` is divisible by 10, and stopping once the elapsed time since
the first post-warmup frame exceeds the duration.  The loop ends when the
frame list is exhausted or `resolve()` fires; it returns the collected
metrics. -/
def runLoop (warmupMs durationMs startTime : ℚ) (api scene : String)
    (info : Nat → FrameInfo) :
    List ℚ → Nat → ℚ → ℚ → List Metric → List Metric
  | [], _, _, _, metrics => metrics
  | t :: rest, frameCount, lastTime, testStartTime, metrics =>
    if testStartTime = 0 then
      runLoop warmupMs durationMs startTime api scene info rest
        (frameCount + 1) t
        (if t - startTime > warmupMs then t else testStartTime) metrics
    else
      if t - testStartTime > durationMs then
        (if frameCount % 10 = 0 then
          metrics ++ [mkSampledMetric api scene frameCount (info frameCount)
            (t - lastTime)]
        else metrics)
      else
        runLoop warmupMs durationMs startTime api scene info rest
          (frameCount + 1) t testStartTime
          (if frameCount % 10 = 0 then
            metrics ++ [mkSampledMetric api scene frameCount (info frameCount)
              (t - lastTime)]
          else metrics)

/-- `AutomatedBenchmark.runSingleTest` (lines 104–208), restricted to the
observable result: collect the metrics through the frame loop, then build
the `TestResult` with `calculateSummary`.  Rendering and scene teardown
have no effect on the returned value. -/
def runSingleTest (cfg : BenchmarkConfig) (api scene : String)
    (res : Nat × Nat) (env : CellEnv) : TestResult :=
  let metrics := runLoop (cfg.warmupTime * 1000) (cfg.duration * 1000)
    env.startTime api scene env.info env.frames 0 env.lastTime0 0 []
  { renderer := api
    scene := scene
    resolution := res
    metrics := metrics
    summary := calculateSummary metrics }

/-- `AutomatedBenchmark.run` (lines 48–102), parameterised by the success
of `rendererFactory` per backend (`factoryOk`, the `try/catch` at
lines 62–67: on failure the backend's whole scene × resolution block is
skipped with `continue`) and by each cell's frame-loop environment.  The
argument `acc` is the instance field `this.results`, which `run` extends
in place with `push` and returns; it is `[]` for a fresh instance and is
never reset between calls. -/
def AutomatedBenchmark.run (cfg : BenchmarkConfig) (factoryOk : String → Bool)
    (env : String → String → Nat × Nat → CellEnv)
    (acc : List TestResult) : List TestResult :=
  cfg.renderers.foldl
    (fun acc1 r =>
      if factoryOk r then
        cfg.scenes.foldl
          (fun acc2 sc =>
            cfg.resolutions.foldl
              (fun acc3 res => acc3 ++ [runSingleTest cfg r sc res (env r sc res)])
              acc2)
          acc1
      else acc1)
    acc

/-- The `TestResult` entries one backend contributes when its factory
succeeds: all its scene × resolution cells in loop order. -/
def cellResults (cfg : BenchmarkConfig) (r : String)
    (env : String → String → Nat × Nat → CellEnv) : List TestResult :=
  cfg.scenes.flatMap fun sc =>
    cfg.resolutions.map fun res => runSingleTest cfg r sc res (env r sc res)

/-- The entries appended to `this.results` by one `run` call. -/
def newEntries (cfg : BenchmarkConfig) (factoryOk : String → Bool)
    (env : String → String → Nat × Nat → CellEnv) : List TestResult :=
  cfg.renderers.flatMap fun r =>
    if factoryOk r then cellResults cfg r env else []

/-- State of `WebGLGpuTimer` (`metrics/gpuTimerGPU.ts`, polling-query
variant): `ext` is whether `EXT_disjoint_timer_query_webgl2` was obtained,
`queries`/`queryPool` mirror the two arrays, `pendingQueries` the
insertion-ordered `Map` from query handle to its `performance.now()`
issue time, and `nextQueryId` is the allocator for `gl.createQuery()`
handles. -/
structure WebGLTimerState where
  ext : Bool
  queries : List Nat
  queryPool : List Nat
  pendingQueries : List (Nat × ℚ)
  nextQueryId : Nat
deriving DecidableEq

/-- Freshly constructed `WebGLGpuTimer`: both arrays and the pending map
empty; `ext` records the context's capability. -/
def WebGLGpuTimer.init (ext : Bool) : WebGLTimerState :=
  { ext := ext, queries := [], queryPool := [], pendingQueries := [], nextQueryId := 0 }

/-- `WebGLGpuTimer.begin` (lines 20–31): pop a handle off the end of the
pool (`Array.prototype.pop`), creating a fresh one if the pool is empty,
and push it onto `queries`. -/
def WebGLGpuTimer.begin (s : WebGLTimerState) : WebGLTimerState :=
  if !s.ext then s
  else
    match s.queryPool.getLast? with
    | some q =>
      { s with queryPool := s.queryPool.dropLast, queries := s.queries ++ [q] }
    | none =>
      { s with queries := s.queries ++ [s.nextQueryId],
               nextQueryId := s.nextQueryId + 1 }

/-- `Map.prototype.set`: update in place when the key is present, append
otherwise. -/
def jsMapSet (m : List (Nat × ℚ)) (k : Nat) (v : ℚ) : List (Nat × ℚ) :=
  if m.any (fun e => e.1 == k) then
    m.map fun e => if e.1 == k then (k, v) else e
  else m ++ [(k, v)]

/-- `WebGLGpuTimer.end` (lines 33–39; `end` is a Lean keyword): record the
last element of `queries` in the pending map with the current
`performance.now()` reading. -/
def WebGLGpuTimer.endQuery (now : ℚ) (s : WebGLTimerState) : WebGLTimerState :=
  if !s.ext || s.queries.isEmpty then s
  else
    match s.queries.getLast? with
    | some q => { s with pendingQueries := jsMapSet s.pendingQueries q now }
    | none => s

/-- Driver replies observed by one `WebGLGpuTimer.poll` call: the
`performance.now()` reading, and per pending handle the
`QUERY_RESULT_AVAILABLE` flag, the `GPU_DISJOINT_EXT` flag as read during
that handle's loop iteration (a constant function recovers a global
disjoint flag), and the raw `QUERY_RESULT` in nanoseconds. -/
structure GlPollEnv where
  now : ℚ
  available : Nat → Bool
  disjoint : Nat → Bool
  queryResult : Nat → ℚ

/-- Accumulator of the `for (const [query, startTime] of pendingQueries)`
loop in `WebGLGpuTimer.poll`: `totalTime`, `completedQueries`, and the
mutated timer state. -/
structure PollAcc where
  totalTime : ℚ
  completedQueries : Nat
  st : WebGLTimerState

/-- One iteration of the `poll` loop (lines 48–72): skip entries younger
than 2 ms; if available and not disjoint, accumulate
`QUERY_RESULT / 1e6`, return the handle to the pool and drop the entry;
if disjoint, delete the handle (not returned to the pool) and drop the
entry. -/
def pollEntry (env : GlPollEnv) (acc : PollAcc) (e : Nat × ℚ) : PollAcc :=
  if env.now - e.2 < 2 then acc
  else
    let available := env.available e.1
    let disjoint := env.disjoint e.1
    let acc1 :=
      if available && !disjoint then
        { totalTime := acc.totalTime + env.queryResult e.1 / 1000000
          completedQueries := acc.completedQueries + 1
          st := { acc.st with
            pendingQueries := acc.st.pendingQueries.filter fun p => p.1 != e.1
            queryPool := acc.st.queryPool ++ [e.1]
            queries := acc.st.queries.filter fun q => q != e.1 } }
      else acc
    if disjoint then
      { acc1 with st := { acc1.st with
          pendingQueries := acc1.st.pendingQueries.filter fun p => p.1 != e.1
          queries := acc1.st.queries.filter fun q => q != e.1 } }
    else acc1

/-- `WebGLGpuTimer.poll` (lines 41–75): iterate the pending map, then
return the mean of the matured values, or `null` when none completed. -/
def WebGLGpuTimer.poll (env : GlPollEnv) (s : WebGLTimerState) :
    Option ℚ × WebGLTimerState :=
  if !s.ext then (none, s)
  else
    let acc := s.pendingQueries.foldl (pollEntry env) ⟨0, 0, s⟩
    (if acc.completedQueries > 0 then
        some (acc.totalTime / (acc.completedQueries : ℚ))
      else none,
     acc.st)

/-- An entry of the pending map is settled once it is at least 2 ms old
(the `performance.now() - startTime < 2` skip at line 50). -/
def entrySettled (env : GlPollEnv) (e : Nat × ℚ) : Bool :=
  decide (2 ≤ env.now - e.2)

/-- An entry matures in a poll call when it is settled, its result is
available, and the disjoint flag is clear: it contributes a value and its
handle returns to the pool. -/
def entryMatured (env : GlPollEnv) (e : Nat × ℚ) : Bool :=
  entrySettled env e && env.available e.1 && !env.disjoint e.1

/-- An entry is removed from the pending map by a poll call when it is
settled and either available or disjoint. -/
def entryRemoved (env : GlPollEnv) (e : Nat × ℚ) : Bool :=
  entrySettled env e && (env.available e.1 || env.disjoint e.1)

/-- Keys deleted from the pending map while the poll loop processes the
entry list `l`. -/
def removedKeys (env : GlPollEnv) (l : List (Nat × ℚ)) : List Nat :=
  (l.filter (entryRemoved env)).map Prod.fst

/-- State of the timestamp-resolve `WebGPUGpuTimer`
(`metrics/gpuTimerGPU.ts`, second variant): the three per-window GPU
objects as optional handles, the `isPolling` flag, plus an allocator and
the sets of created-but-not-destroyed query sets and buffers (tracking
`createQuerySet`/`createBuffer`/`destroy`). -/
structure WebGPUTimerState where
  feature : Bool
  querySet : Option Nat
  resolveBuffer : Option Nat
  resultBuffer : Option Nat
  isPolling : Bool
  nextId : Nat
  liveQuerySets : List Nat
  liveBuffers : List Nat
deriving DecidableEq

/-- Freshly constructed timestamp-resolve `WebGPUGpuTimer`; `feature` is
`device.features.has('timestamp-query')`. -/
def WebGPUGpuTimer.init (feature : Bool) : WebGPUTimerState :=
  { feature := feature, querySet := none, resolveBuffer := none,
    resultBuffer := none, isPolling := false, nextId := 0,
    liveQuerySets := [], liveBuffers := [] }

/-- `WebGPUGpuTimer.begin` (lines 152–171): a no-op without the
`timestamp-query` feature or while `isPolling`; otherwise allocate a fresh
2-slot query set, a resolve buffer and a result buffer, overwriting the
previous references (the prior objects are not destroyed). -/
def WebGPUGpuTimer.begin (s : WebGPUTimerState) : WebGPUTimerState :=
  if !s.feature || s.isPolling then s
  else
    { s with querySet := some s.nextId
             resolveBuffer := some (s.nextId + 1)
             resultBuffer := some (s.nextId + 2)
             nextId := s.nextId + 3
             liveQuerySets := s.liveQuerySets ++ [s.nextId]
             liveBuffers := s.liveBuffers ++ [s.nextId + 1, s.nextId + 2] }

/-- `WebGPUGpuTimer.end` (lines 173–179): a no-op unless all three window
objects exist; otherwise mark the window ready for polling. -/
def WebGPUGpuTimer.endMark (s : WebGPUTimerState) : WebGPUTimerState :=
  if s.querySet.isNone || s.resolveBuffer.isNone || s.resultBuffer.isNone then s
  else { s with isPolling := true }

/-- Outcome of the `mapAsync` await inside the timestamp-resolve `poll`:
whether the map succeeded, and the two 64-bit timestamps read from the
mapped buffer (nanoseconds). -/
structure GpuPollEnv where
  mapSuccess : Bool
  t0 : ℚ
  t1 : ℚ

/-- Remove a destroyed handle from a live set. -/
def removeId (l : List Nat) (x : Option Nat) : List Nat :=
  match x with
  | none => l
  | some v => l.filter fun y => y != v

/-- `WebGPUGpuTimer.poll` (lines 181–212): `null` unless a window is
pending; on a successful map, read the two timestamps, destroy the query
set and both buffers, reset to idle and return `(end − start) / 1e6`; on
a map failure, clear `isPolling` only (the catch block at lines 207–211
does not destroy the objects) and return `null`. -/
def WebGPUGpuTimer.poll (env : GpuPollEnv) (s : WebGPUTimerState) :
    Option ℚ × WebGPUTimerState :=
  if !s.isPolling || s.resultBuffer.isNone then (none, s)
  else if env.mapSuccess then
    (some ((env.t1 - env.t0) / 1000000),
     { s with querySet := none, resolveBuffer := none, resultBuffer := none,
              isPolling := false,
              liveQuerySets := removeId s.liveQuerySets s.querySet,
              liveBuffers := removeId (removeId s.liveBuffers s.resolveBuffer)
                s.resultBuffer })
  else (none, { s with isPolling := false })

/-- Call sequence against a `WebGLGpuTimer`: each `poll` carries the driver
replies it observes, each `end` its `performance.now()` reading. -/
inductive WebGLOp where
  | beginOp : WebGLOp
  | endOp : ℚ → WebGLOp
  | pollOp : GlPollEnv → WebGLOp

/-- Run a call sequence against a `WebGLGpuTimer`, collecting every
`poll` return value. -/
def WebGLGpuTimer.runOps : List WebGLOp → WebGLTimerState →
    WebGLTimerState × List (Option ℚ)
  | [], s => (s, [])
  | WebGLOp.beginOp :: rest, s => WebGLGpuTimer.runOps rest (WebGLGpuTimer.begin s)
  | WebGLOp.endOp now :: rest, s =>
    WebGLGpuTimer.runOps rest (WebGLGpuTimer.endQuery now s)
  | WebGLOp.pollOp env :: rest, s =>
    let r := WebGLGpuTimer.poll env s
    let rec2 := WebGLGpuTimer.runOps rest r.2
    (rec2.1, r.1 :: rec2.2)

/-- Call sequence against the timestamp-resolve `WebGPUGpuTimer`. -/
inductive WebGPUOp where
  | beginOp : WebGPUOp
  | endOp : WebGPUOp
  | pollOp : GpuPollEnv → WebGPUOp

/-- Run a call sequence against the timestamp-resolve `WebGPUGpuTimer`,
collecting every `poll` return value. -/
def WebGPUGpuTimer.runOps : List WebGPUOp → WebGPUTimerState →
    WebGPUTimerState × List (Option ℚ)
  | [], s => (s, [])
  | WebGPUOp.beginOp :: rest, s => WebGPUGpuTimer.runOps rest (WebGPUGpuTimer.begin s)
  | WebGPUOp.endOp :: rest, s => WebGPUGpuTimer.runOps rest (WebGPUGpuTimer.endMark s)
  | WebGPUOp.pollOp env :: rest, s =>
    let r := WebGPUGpuTimer.poll env s
    let rec2 := WebGPUGpuTimer.runOps rest r.2
    (rec2.1, r.1 :: rec2.2)

/-- Decimal digit character, `'0'`–`'9'` for `n ≤ 9`. -/
def digitChar (n : Nat) : Char :=
  Char.ofNat (48 + n)

/-- The two-digit zero-padded decimal rendering of `n % 100`, the fraction
part a JavaScript `toFixed(2)` emits. -/
def twoDigits (n : Nat) : String :=
  String.mk [digitChar (n / 10 % 10), digitChar (n % 10)]

/-- JavaScript `Number.prototype.toFixed(2)`: sign, then the integer part,
a dot, and exactly two fraction digits of the magnitude rounded to the
nearest hundredth with ties away from zero (ECMA-262 `Number.toFixed`
picks the larger candidate on ties, after extracting the sign). -/
def toFixed2 (q : ℚ) : String :=
  (if q < 0 then ("-" : String) else ("" : String)) ++
    toString ((⌊|q| * 100 + 1 / 2⌋).toNat / 100) ++ ("." : String) ++
    twoDigits ((⌊|q| * 100 + 1 / 2⌋).toNat % 100)

/-- The CSV header fields of `exportCsv` (`metrics/exportCsv.ts`
lines 10–21). -/
def csvHeaders : List String :=
  ["frame", "timestamp", "api", "scene", "fps", "cpu_ms", "gpu_ms",
   "vram_mb", "draw_calls", "triangles"]

/-- One CSV row of `exportCsv` (lines 24–35): raw integers for
frame/timestamp/vram and counters (`x || 0` on the optional counters),
`toFixed(2)` for fps/cpu, and `toFixed(2)` or the literal `N/A` for
`gpu_ms`. -/
def metricRow (m : Metric) : List String :=
  [toString m.frame, toString m.timestamp, m.api, m.scene,
   toFixed2 m.fps, toFixed2 m.cpu_ms,
   (match m.gpu_ms with
    | some v => toFixed2 v
    | none => ("N/A" : String)),
   toString m.vram_mb, toString (m.draw_calls.getD 0),
   toString (m.triangles.getD 0)]

/-- The CSV text `exportCsv` builds (lines 38–41): the joined header line
then one joined line per metric, each newline-terminated.  The empty
input is rejected with an alert before any CSV is built (lines 4–7),
modelled as `none`. -/
def exportCsvContent (metrics : List Metric) : Option String :=
  if metrics.isEmpty then none
  else
    some (String.intercalate ("," : String) csvHeaders ++ ("\n" : String) ++
      String.join (metrics.map fun m =>
        String.intercalate ("," : String) (metricRow m) ++ ("\n" : String)))

/-- Substring test on character lists (`hay` contains `needle`). -/
def occursIn (needle : List Char) : List Char → Bool
  | [] => needle.isEmpty
  | c :: rest => needle.isPrefixOf (c :: rest) || occursIn needle rest

/-- Format check for "exactly two decimal places": the string ends in a
dot followed by exactly two decimal digits. -/
def twoDecimalFormat (s : String) : Bool :=
  match s.data.reverse with
  | b :: a :: c :: _ => a.isDigit && b.isDigit && (c == '.')
  | _ => false

/-- A trivial cell environment (no frames), for instantiating the
orchestrator theorems at concrete inputs. -/
def trivialCellEnv : CellEnv :=
  { lastTime0 := 0, startTime := 0, frames := [], info := fun _ => ⟨0, 0, 0, 0⟩ }

/-- The 2 backends × 2 scenes × 1 resolution configuration of the spec's
partial-failure scenario. -/
def demoConfig : BenchmarkConfig :=
  { renderers := ["webgl", "webgpu"], scenes := ["storm", "particles"],
    duration := 30, warmupTime := 5, resolutions := [(1920, 1080)] }

/-- Factory success map in which exactly the `webgl` backend initialises. -/
def demoFactoryOk : String → Bool := fun r => r == "webgl"

/-- A concrete two-sample metrics list. -/
def demoMetrics : List Metric :=
  [{ frame := 0, timestamp := 100, api := "webgl", scene := "storm",
     fps := 50, cpu_ms := 20, gpu_ms := none, vram_mb := 128,
     draw_calls := some 10, triangles := some 1000 },
   { frame := 10, timestamp := 200, api := "webgl", scene := "storm",
     fps := 60, cpu_ms := 50 / 3, gpu_ms := some 5, vram_mb := 130,
     draw_calls := some 10, triangles := some 1000 }]

/-- A concrete frame-time trace: warmup ends at the first frame, the
eleventh `animate` call (global frame counter 10) is the first sampled
frame. -/
def demoFrames : List ℚ :=
  [10, 20, 30, 40, 50, 60, 70, 80, 90, 100, 110, 120]

/-- Constant renderer readings for the concrete trace. -/
def demoFrameInfo : Nat → FrameInfo :=
  fun k => { timestamp := 1000 + k, vram_mb := 64, draw_calls := 7, triangles := 42 }

/-- Timestamp-resolve timer state after `begin(); end()`: one window open
and awaiting `poll()` (`isPolling` set). -/
def demoPollingState : WebGPUTimerState :=
  WebGPUGpuTimer.endMark (WebGPUGpuTimer.begin (WebGPUGpuTimer.init true))

/-- A single metric with `gpu_ms = null`, the spec's CSV test case. -/
def demoNullMetric : Metric :=
  { frame := 0, timestamp := 5, api := "webgl", scene := "storm",
    fps := 60, cpu_ms := 50 / 3, gpu_ms := none, vram_mb := 128,
    draw_calls := some 10, triangles := some 1000 }

/-- The CSV text exported for the single null-`gpu_ms` metric. -/
def demoNullCsv : String :=
  (exportCsvContent [demoNullMetric]).getD ("" : String)

/-- Driver replies for a poll in which query 0 is settled, available and
not disjoint, with a raw duration of 3 ms in nanoseconds. -/
def demoGlEnv : GlPollEnv :=
  { now := 10, available := fun _ => true, disjoint := fun _ => false,
    queryResult := fun _ => 3000000 }

/-- Driver replies for a poll that observes the disjoint flag on every
query. -/
def demoGlDisjointEnv : GlPollEnv :=
  { now := 10, available := fun _ => false, disjoint := fun _ => true,
    queryResult := fun _ => 3000000 }

/-- Polling-query timer state with a single pending query (id 0, issued at
t = 1 ms) and an empty pool. -/
def demoGlState : WebGLTimerState :=
  { ext := true, queries := [0], queryPool := [], pendingQueries := [(0, 1)],
    nextQueryId := 1 }

theorem foldl_append_flatMap {α β : Type} (body : List β → α → List β)
    (g : α → List β) (hbody : ∀ acc x, body acc x = acc ++ g x) :
    ∀ (l : List α) (acc : List β),
      List.foldl body acc l = acc ++ l.flatMap g
  | [], acc => by simp
  | x :: l, acc => by
    rw [List.foldl_cons, hbody,
      foldl_append_flatMap body g hbody l, List.flatMap_cons, List.append_assoc]

theorem run_eq_append (cfg : BenchmarkConfig) (fok : String → Bool)
    (env : String → String → Nat × Nat → CellEnv) (acc : List TestResult) :
    AutomatedBenchmark.run cfg fok env acc = acc ++ newEntries cfg fok env := by
  have hres : ∀ (r : String) (sc : String) (acc3 : List TestResult),
      List.foldl (fun acc3 res => acc3 ++ [runSingleTest cfg r sc res (env r sc res)])
        acc3 cfg.resolutions
        = acc3 ++ cfg.resolutions.map fun res => runSingleTest cfg r sc res (env r sc res) := by
    intro r sc acc3
    rw [foldl_append_flatMap _ (fun res => [runSingleTest cfg r sc res (env r sc res)])
      (fun _ _ => rfl)]
    congr 1
    induction cfg.resolutions with
    | nil => rfl
    | cons x xs ih => simp [List.flatMap_cons, ih]
  have hsc : ∀ (r : String) (acc2 : List TestResult),
      List.foldl (fun acc2 sc =>
          List.foldl (fun acc3 res => acc3 ++ [runSingleTest cfg r sc res (env r sc res)])
            acc2 cfg.resolutions)
        acc2 cfg.scenes
        = acc2 ++ cellResults cfg r env := by
    intro r acc2
    exact foldl_append_flatMap _
      (fun sc => cfg.resolutions.map fun res => runSingleTest cfg r sc res (env r sc res))
      (fun acc3 sc => hres r sc acc3) cfg.scenes acc2
  exact foldl_append_flatMap _
    (fun r => if fok r then cellResults cfg r env else [])
    (fun acc1 r => by
      by_cases h : fok r = true
      · simp only [h, if_true]; exact hsc r acc1
      · simp only [Bool.not_eq_true] at h; simp [h])
    cfg.renderers acc

theorem mem_cellResults {cfg : BenchmarkConfig} {r : String}
    {env : String → String → Nat × Nat → CellEnv} {tr : TestResult}
    (h : tr ∈ cellResults cfg r env) : tr.renderer = r := by
  simp only [cellResults, List.mem_flatMap, List.mem_map] at h
  obtain ⟨sc, _, res, _, rfl⟩ := h
  rfl

theorem mem_newEntries {cfg : BenchmarkConfig} {fok : String → Bool}
    {env : String → String → Nat × Nat → CellEnv} {tr : TestResult}
    (h : tr ∈ newEntries cfg fok env) : fok tr.renderer = true := by
  simp only [newEntries, List.mem_flatMap] at h
  obtain ⟨r, _, hmem⟩ := h
  by_cases hr : fok r = true
  · rw [mem_cellResults (by simpa [hr] using hmem)]; exact hr
  · simp only [Bool.not_eq_true] at hr; simp [hr] at hmem

/-- C1: if `rendererFactory` fails for a backend, `run()` logs, skips
every (scene, resolution) cell of that backend via `continue`, and keeps
going, so the returned results contain zero entries for that backend; in
particular for 2 backends × 2 scenes × 1 resolution with exactly one
failing backend, `run()` on a fresh instance returns 2 entries, all for
the succeeding backend. -/
theorem run_skips_failed_backend (cfg : BenchmarkConfig) (fok : String → Bool)
    (env : String → String → Nat × Nat → CellEnv) (b : String)
    (hb : fok b = false) :
    (AutomatedBenchmark.run cfg fok env []).countP (fun tr => tr.renderer == b) = 0 ∧
    (cfg.renderers = ["webgl", "webgpu"] → cfg.scenes = ["storm", "particles"] →
      cfg.resolutions = [(1920, 1080)] → fok "webgl" = true → b = "webgpu" →
      (AutomatedBenchmark.run cfg fok env []).length = 2 ∧
      (AutomatedBenchmark.run cfg fok env []).countP
        (fun tr => tr.renderer == "webgl") = 2) := by
  constructor
  · rw [run_eq_append, List.nil_append, List.countP_eq_zero]
    intro tr htr
    have hren := mem_newEntries htr
    simp only [beq_iff_eq]
    intro hEq
    rw [hEq, hb] at hren
    exact Bool.false_ne_true hren
  · intro h1 h2 h3 h4 h5
    subst h5
    rw [run_eq_append, List.nil_append]
    simp [newEntries, cellResults, h1, h2, h3, h4, hb, runSingleTest,
      List.countP_cons]

/-- C10: the `results` accumulator is instance state that `run()` never
resets, so a second `run()` on the same instance returns the first call's
entries followed by the entries the second call produces. -/
theorem run_results_accumulate (cfg₁ cfg₂ : BenchmarkConfig)
    (fok₁ fok₂ : String → Bool)
    (env₁ env₂ : String → String → Nat × Nat → CellEnv) :
    AutomatedBenchmark.run cfg₂ fok₂ env₂ (AutomatedBenchmark.run cfg₁ fok₁ env₁ []) =
      AutomatedBenchmark.run cfg₁ fok₁ env₁ [] ++
        AutomatedBenchmark.run cfg₂ fok₂ env₂ [] := by
  rw [run_eq_append cfg₂ fok₂ env₂ (AutomatedBenchmark.run cfg₁ fok₁ env₁ []),
    run_eq_append cfg₂ fok₂ env₂ [], List.nil_append]

theorem p95Index_lt {n : Nat} (h : 1 ≤ n) : p95Index n < n := by
  have h1 : ⌊(n : ℚ) * (95 / 100)⌋ < (n : ℤ) := by
    apply Int.floor_lt.mpr
    have hn : (1 : ℚ) ≤ (n : ℚ) := by exact_mod_cast h
    push_cast
    linarith
  unfold p95Index
  omega

theorem p99Index_lt {n : Nat} (h : 1 ≤ n) : p99Index n < n := by
  have h1 : ⌊(n : ℚ) * (99 / 100)⌋ < (n : ℤ) := by
    apply Int.floor_lt.mpr
    have hn : (1 : ℚ) ≤ (n : ℚ) := by exact_mod_cast h
    push_cast
    linarith
  unfold p99Index
  omega

theorem p95Index_le_p99Index (n : Nat) : p95Index n ≤ p99Index n := by
  have h1 : ⌊(n : ℚ) * (95 / 100)⌋ ≤ ⌊(n : ℚ) * (99 / 100)⌋ := by
    apply Int.floor_le_floor
    have hn : (0 : ℚ) ≤ (n : ℚ) := by positivity
    nlinarith
  unfold p95Index p99Index
  omega

theorem foldl_min_le_init : ∀ (xs : List ℚ) (a : ℚ), xs.foldl min a ≤ a
  | [], a => le_refl a
  | x :: xs, a =>
    le_trans (foldl_min_le_init xs (min a x)) (min_le_left a x)

theorem foldl_min_le_mem : ∀ (xs : List ℚ) (a x : ℚ), x ∈ xs → xs.foldl min a ≤ x
  | y :: ys, a, x, h => by
    rcases List.mem_cons.mp h with rfl | hx
    · exact le_trans (foldl_min_le_init ys (min a x)) (min_le_right a x)
    · exact foldl_min_le_mem ys (min a y) x hx

theorem jsMin_le {l : List ℚ} {x : ℚ} (h : x ∈ l) : jsMin l ≤ x := by
  match l, h with
  | y :: ys, h =>
    rcases List.mem_cons.mp h with rfl | hx
    · exact foldl_min_le_init ys x
    · exact foldl_min_le_mem ys y x hx

theorem init_le_foldl_max : ∀ (xs : List ℚ) (a : ℚ), a ≤ xs.foldl max a
  | [], a => le_refl a
  | x :: xs, a =>
    le_trans (le_max_left a x) (init_le_foldl_max xs (max a x))

theorem mem_le_foldl_max : ∀ (xs : List ℚ) (a x : ℚ), x ∈ xs → x ≤ xs.foldl max a
  | y :: ys, a, x, h => by
    rcases List.mem_cons.mp h with rfl | hx
    · exact le_trans (le_max_right a x) (init_le_foldl_max ys (max a x))
    · exact mem_le_foldl_max ys (max a y) x hx

theorem le_jsMax {l : List ℚ} {x : ℚ} (h : x ∈ l) : x ≤ jsMax l := by
  match l, h with
  | y :: ys, h =>
    rcases List.mem_cons.mp h with rfl | hx
    · exact init_le_foldl_max ys x
    · exact mem_le_foldl_max ys y x hx

theorem avg_between {l : List ℚ} (h : l ≠ []) :
    jsMin l ≤ l.sum / (l.length : ℚ) ∧ l.sum / (l.length : ℚ) ≤ jsMax l := by
  have hl : 0 < l.length := List.length_pos.mpr h
  have hlq : (0 : ℚ) < (l.length : ℚ) := by exact_mod_cast hl
  constructor
  · rw [le_div_iff₀ hlq]
    have hs := List.card_nsmul_le_sum l (jsMin l) fun x hx => jsMin_le hx
    rwa [nsmul_eq_mul, mul_comm] at hs
  · rw [div_le_iff₀ hlq]
    have hs := List.sum_le_card_nsmul l (jsMax l) fun x hx => le_jsMax hx
    rwa [nsmul_eq_mul, mul_comm] at hs

theorem length_sortFps (metrics : List Metric) :
    (sortFpsAscending (metrics.map Metric.fps)).length = metrics.length := by
  simp [sortFpsAscending]

/-- C2: for a metrics list of length n ≥ 1, `calculateSummary` computes
`percentile95Fps`/`percentile99Fps` as the elements at indices
⌊n·0.95⌋ and ⌊n·0.99⌋ of the fps values sorted ascending. -/
theorem calculateSummary_percentiles (metrics : List Metric) (h : metrics ≠ []) :
    ∃ (h95 : p95Index metrics.length <
        (sortFpsAscending (metrics.map Metric.fps)).length)
      (h99 : p99Index metrics.length <
        (sortFpsAscending (metrics.map Metric.fps)).length),
      (calculateSummary metrics).percentile95Fps
          = (sortFpsAscending (metrics.map Metric.fps)).get
              ⟨p95Index metrics.length, h95⟩ ∧
      (calculateSummary metrics).percentile99Fps
          = (sortFpsAscending (metrics.map Metric.fps)).get
              ⟨p99Index metrics.length, h99⟩ := by
  have hlen := length_sortFps metrics
  have hn : 1 ≤ metrics.length := List.length_pos.mpr h
  have h95 : p95Index metrics.length <
      (sortFpsAscending (metrics.map Metric.fps)).length := by
    rw [hlen]; exact p95Index_lt hn
  have h99 : p99Index metrics.length <
      (sortFpsAscending (metrics.map Metric.fps)).length := by
    rw [hlen]; exact p99Index_lt hn
  refine ⟨h95, h99, ?_, ?_⟩
  · show (sortFpsAscending (metrics.map Metric.fps)).getD
        (p95Index (sortFpsAscending (metrics.map Metric.fps)).length) 0 = _
    have hidx : p95Index (sortFpsAscending (metrics.map Metric.fps)).length
        = p95Index metrics.length := by rw [hlen]
    rw [hidx, List.getD_eq_getElem _ _ h95, List.get_eq_getElem]
  · show (sortFpsAscending (metrics.map Metric.fps)).getD
        (p99Index (sortFpsAscending (metrics.map Metric.fps)).length) 0 = _
    have hidx : p99Index (sortFpsAscending (metrics.map Metric.fps)).length
        = p99Index metrics.length := by rw [hlen]
    rw [hidx, List.getD_eq_getElem _ _ h99, List.get_eq_getElem]

/-- C8: for every non-empty metrics list the summary satisfies
`minFps ≤ avgFps ≤ maxFps` and
`percentile95Fps ≤ percentile99Fps ≤ maxFps` (exact over ℚ, which models
the floating-point computation within tolerance). -/
theorem calculateSummary_bounds (metrics : List Metric) (h : metrics ≠ []) :
    (calculateSummary metrics).minFps ≤ (calculateSummary metrics).avgFps ∧
    (calculateSummary metrics).avgFps ≤ (calculateSummary metrics).maxFps ∧
    (calculateSummary metrics).percentile95Fps
      ≤ (calculateSummary metrics).percentile99Fps ∧
    (calculateSummary metrics).percentile99Fps
      ≤ (calculateSummary metrics).maxFps := by
  have hlen := length_sortFps metrics
  have hn : 1 ≤ metrics.length := List.length_pos.mpr h
  have hne : sortFpsAscending (metrics.map Metric.fps) ≠ [] := by
    intro hnil
    rw [hnil] at hlen
    simp only [List.length_nil] at hlen
    omega
  have hsorted : List.Sorted (fun a b => a ≤ b)
      (sortFpsAscending (metrics.map Metric.fps)) :=
    List.sorted_insertionSort _ _
  have h95 : p95Index (sortFpsAscending (metrics.map Metric.fps)).length <
      (sortFpsAscending (metrics.map Metric.fps)).length := by
    rw [hlen]; exact p95Index_lt hn
  have h99 : p99Index (sortFpsAscending (metrics.map Metric.fps)).length <
      (sortFpsAscending (metrics.map Metric.fps)).length := by
    rw [hlen]; exact p99Index_lt hn
  refine ⟨(avg_between hne).1, (avg_between hne).2, ?_, ?_⟩
  · show (sortFpsAscending (metrics.map Metric.fps)).getD _ 0
        ≤ (sortFpsAscending (metrics.map Metric.fps)).getD _ 0
    rw [List.getD_eq_getElem _ _ h95, List.getD_eq_getElem _ _ h99]
    exact hsorted.rel_get_of_le
      (a := ⟨_, h95⟩) (b := ⟨_, h99⟩)
      (p95Index_le_p99Index _)
  · show (sortFpsAscending (metrics.map Metric.fps)).getD _ 0
        ≤ jsMax (sortFpsAscending (metrics.map Metric.fps))
    rw [List.getD_eq_getElem _ _ h99]
    exact le_jsMax (List.getElem_mem _)

/-- Witness for C1: the 2 × 2 × 1 configuration in which only `webgl`
initialises. -/
theorem run_skips_failed_backend_witness :
    demoFactoryOk "webgpu" = false ∧
    ((AutomatedBenchmark.run demoConfig demoFactoryOk (fun _ _ _ => trivialCellEnv) []).countP
        (fun tr => tr.renderer == "webgpu") = 0 ∧
      (demoConfig.renderers = ["webgl", "webgpu"] →
        demoConfig.scenes = ["storm", "particles"] →
        demoConfig.resolutions = [(1920, 1080)] → demoFactoryOk "webgl" = true →
        "webgpu" = "webgpu" →
        (AutomatedBenchmark.run demoConfig demoFactoryOk (fun _ _ _ => trivialCellEnv) []).length = 2 ∧
        (AutomatedBenchmark.run demoConfig demoFactoryOk (fun _ _ _ => trivialCellEnv) []).countP
          (fun tr => tr.renderer == "webgl") = 2)) :=
  ⟨rfl, run_skips_failed_backend demoConfig demoFactoryOk
    (fun _ _ _ => trivialCellEnv) ("webgpu") rfl⟩

/-- Witness for C2 at the two-sample list. -/
theorem calculateSummary_percentiles_witness :
    demoMetrics ≠ [] ∧
    (∃ (h95 : p95Index demoMetrics.length <
        (sortFpsAscending (demoMetrics.map Metric.fps)).length)
      (h99 : p99Index demoMetrics.length <
        (sortFpsAscending (demoMetrics.map Metric.fps)).length),
      (calculateSummary demoMetrics).percentile95Fps
          = (sortFpsAscending (demoMetrics.map Metric.fps)).get
              ⟨p95Index demoMetrics.length, h95⟩ ∧
      (calculateSummary demoMetrics).percentile99Fps
          = (sortFpsAscending (demoMetrics.map Metric.fps)).get
              ⟨p99Index demoMetrics.length, h99⟩) :=
  ⟨List.cons_ne_nil _ _,
    calculateSummary_percentiles demoMetrics (List.cons_ne_nil _ _)⟩

/-- Witness for C8 at the two-sample list. -/
theorem calculateSummary_bounds_witness :
    demoMetrics ≠ [] ∧
    ((calculateSummary demoMetrics).minFps ≤ (calculateSummary demoMetrics).avgFps ∧
      (calculateSummary demoMetrics).avgFps ≤ (calculateSummary demoMetrics).maxFps ∧
      (calculateSummary demoMetrics).percentile95Fps
        ≤ (calculateSummary demoMetrics).percentile99Fps ∧
      (calculateSummary demoMetrics).percentile99Fps
        ≤ (calculateSummary demoMetrics).maxFps) :=
  ⟨List.cons_ne_nil _ _,
    calculateSummary_bounds demoMetrics (List.cons_ne_nil _ _)⟩

/-- C7 (code bug): evaluating the sampling loop on a concrete trace — the
eleventh `animate` call is the first sampled frame with Δ = 10 ms — the
appended `Metric` has `fps = 1000/Δ = 100` and `cpu_ms = Δ = 10` as the
claim states, but `gpu_ms` is `null` unconditionally: line 153 of
`automatedTest.ts` hardcodes `gpu_ms: null` (`// TODO: GPU timer
integration`) and never consults a `GpuTimer.poll()`. -/
theorem runLoop_gpu_ms_always_null :
    runLoop 1 1000 0 ("webgl") ("storm") demoFrameInfo demoFrames 0 0 0 []
      = [{ frame := 10, timestamp := 1010, api := "webgl", scene := "storm",
           fps := 100, cpu_ms := 10, gpu_ms := none, vram_mb := 64,
           draw_calls := some 7, triangles := some 42 }] := by
  rw [demoFrames]
  repeat first
  | (rw [runLoop]; norm_num [demoFrameInfo, mkSampledMetric])
  | rw [runLoop]

/-- C5 (counterexample): on a timestamp-query-capable device, a second
`begin()` issued right after a first `begin()` — before the prior
window's `poll()` has settled (no `end()` or `poll()` has happened, so
`isPolling` is still false) — is not rejected or ignored: the state
changes, and afterwards two query sets (and four buffers) exist
undestroyed, so more than one window's query set, resolve buffer and
result buffer exist at once. -/
theorem wgpu_double_begin_not_noop :
    WebGPUGpuTimer.begin (WebGPUGpuTimer.begin (WebGPUGpuTimer.init true))
        ≠ WebGPUGpuTimer.begin (WebGPUGpuTimer.init true) ∧
    (WebGPUGpuTimer.begin (WebGPUGpuTimer.init true)).isPolling = false ∧
    (WebGPUGpuTimer.begin (WebGPUGpuTimer.begin
        (WebGPUGpuTimer.init true))).liveQuerySets.length = 2 ∧
    (WebGPUGpuTimer.begin (WebGPUGpuTimer.init true)).liveQuerySets.length = 1 := by
  decide

/-- C5 (amended): in the Timestamp-Resolve variant, a second `begin()`
issued after the window's `end()` and before its `poll()` settles (while
`isPolling` is set) is ignored as a no-op, so in the ended-awaiting-poll
phase at most one window's query set, resolve buffer and result buffer
exist; a second `begin()` issued before `end()`, however, allocates a
fresh window and orphans the previous objects. -/
theorem wgpu_begin_noop_while_polling (s : WebGPUTimerState)
    (h : s.isPolling = true) : WebGPUGpuTimer.begin s = s := by
  unfold WebGPUGpuTimer.begin
  rw [h]
  simp

/-- Witness for the amended C5 at the begun-and-ended window state. -/
theorem wgpu_begin_noop_while_polling_witness :
    demoPollingState.isPolling = true ∧
    WebGPUGpuTimer.begin demoPollingState = demoPollingState :=
  ⟨by decide, wgpu_begin_noop_while_polling demoPollingState (by decide)⟩

/-- C6: a GpuTimer constructed on a context/device without timing
capability (`EXT_disjoint_timer_query_webgl2` absent, resp.
`timestamp-query` absent) is permanently degraded: under every call
sequence, `begin`/`end` leave the state unchanged and every `poll` call
returns null — and each operation is a total function of the state, so
none of them throws. -/
theorem no_capability_timer_degraded (ops : List WebGLOp) (ops2 : List WebGPUOp) :
    (WebGLGpuTimer.runOps ops (WebGLGpuTimer.init false)).1
        = WebGLGpuTimer.init false ∧
    (∀ v ∈ (WebGLGpuTimer.runOps ops (WebGLGpuTimer.init false)).2, v = none) ∧
    (WebGPUGpuTimer.runOps ops2 (WebGPUGpuTimer.init false)).1
        = WebGPUGpuTimer.init false ∧
    (∀ v ∈ (WebGPUGpuTimer.runOps ops2 (WebGPUGpuTimer.init false)).2, v = none) := by
  have hgl : ∀ ops : List WebGLOp,
      (WebGLGpuTimer.runOps ops (WebGLGpuTimer.init false)).1
          = WebGLGpuTimer.init false ∧
      ∀ v ∈ (WebGLGpuTimer.runOps ops (WebGLGpuTimer.init false)).2, v = none := by
    intro ops
    induction ops with
    | nil => exact ⟨rfl, by simp [WebGLGpuTimer.runOps]⟩
    | cons op rest ih =>
      cases op with
      | beginOp => exact ih
      | endOp now => exact ih
      | pollOp env =>
        refine ⟨ih.1, ?_⟩
        intro v hv
        simp only [WebGLGpuTimer.runOps] at hv
        rcases List.mem_cons.mp hv with rfl | hv2
        · rfl
        · exact ih.2 v hv2
  have hgpu : ∀ ops : List WebGPUOp,
      (WebGPUGpuTimer.runOps ops (WebGPUGpuTimer.init false)).1
          = WebGPUGpuTimer.init false ∧
      ∀ v ∈ (WebGPUGpuTimer.runOps ops (WebGPUGpuTimer.init false)).2, v = none := by
    intro ops
    induction ops with
    | nil => exact ⟨rfl, by simp [WebGPUGpuTimer.runOps]⟩
    | cons op rest ih =>
      cases op with
      | beginOp => exact ih
      | endOp => exact ih
      | pollOp env =>
        refine ⟨ih.1, ?_⟩
        intro v hv
        simp only [WebGPUGpuTimer.runOps] at hv
        rcases List.mem_cons.mp hv with rfl | hv2
        · rfl
        · exact ih.2 v hv2
  exact ⟨(hgl ops).1, (hgl ops).2, (hgpu ops2).1, (hgpu ops2).2⟩

theorem digitChar_isDigit {k : Nat} (hk : k < 10) : (digitChar k).isDigit = true := by
  interval_cases k <;> decide

theorem twoDecimalFormat_append (s : String) (c1 c2 : Char)
    (h1 : c1.isDigit = true) (h2 : c2.isDigit = true) :
    twoDecimalFormat (s ++ ("." : String) ++ String.mk [c1, c2]) = true := by
  have hdot : ("." : String).data = ['.'] := rfl
  unfold twoDecimalFormat
  simp [String.data_append, hdot, List.reverse_append, h1, h2]

theorem twoDecimalFormat_toFixed2 (q : ℚ) :
    twoDecimalFormat (toFixed2 q) = true := by
  unfold toFixed2 twoDigits
  exact twoDecimalFormat_append _ _ _
    (digitChar_isDigit (Nat.mod_lt _ (by norm_num)))
    (digitChar_isDigit (Nat.mod_lt _ (by norm_num)))

theorem toFixed2_sixty : toFixed2 (60 : ℚ) = ("60.00" : String) := by
  have hfl0 : ⌊|(60 : ℚ)| * 100 + 1 / 2⌋ = 6000 := by norm_num
  have hfl : (⌊|(60 : ℚ)| * 100 + 1 / 2⌋).toNat = 6000 := by rw [hfl0]; decide
  unfold toFixed2
  rw [hfl, if_neg (by norm_num : ¬((60 : ℚ) < 0))]
  decide

theorem toFixed2_fifty_thirds : toFixed2 (50 / 3 : ℚ) = ("16.67" : String) := by
  have hfl0 : ⌊|(50 / 3 : ℚ)| * 100 + 1 / 2⌋ = 1667 := by
    rw [abs_of_nonneg (by norm_num : (0 : ℚ) ≤ 50 / 3)]
    norm_num
  have hfl : (⌊|(50 / 3 : ℚ)| * 100 + 1 / 2⌋).toNat = 1667 := by rw [hfl0]; decide
  unfold toFixed2
  rw [hfl, if_neg (by norm_num : ¬((50 / 3 : ℚ) < 0))]
  decide

theorem metricRow_demoNull :
    metricRow demoNullMetric
      = [("0" : String), ("5" : String), ("webgl" : String), ("storm" : String),
         ("60.00" : String), ("16.67" : String), ("N/A" : String),
         ("128" : String), ("10" : String), ("1000" : String)] := by
  show [toString (0 : Nat), toString (5 : Nat), ("webgl" : String),
        ("storm" : String), toFixed2 (60 : ℚ), toFixed2 (50 / 3 : ℚ),
        ("N/A" : String), toString (128 : Nat),
        toString ((some 10 : Option Nat).getD 0),
        toString ((some 1000 : Option Nat).getD 0)] = _
  rw [toFixed2_sixty, toFixed2_fifty_thirds]
  decide

theorem demoNullCsv_eq :
    demoNullCsv =
      ("frame,timestamp,api,scene,fps,cpu_ms,gpu_ms,vram_mb,draw_calls,triangles\n0,5,webgl,storm,60.00,16.67,N/A,128,10,1000\n" : String) := by
  unfold demoNullCsv exportCsvContent
  simp only [List.map_cons, List.map_nil, metricRow_demoNull]
  decide

/-- C9: for every non-empty metrics list the CSV starts with the exact
documented header line; a null `gpu_ms` renders as the literal `N/A` in
the gpu_ms column; fps, cpu_ms and non-null gpu_ms are `toFixed(2)`
strings, i.e. end in a dot and exactly two decimal digits; and for the
concrete one-metric null-`gpu_ms` export the output contains the
substring `N/A` and neither `null` nor `NaN`. -/
theorem exportCsv_spec (metrics : List Metric) (h : metrics ≠ []) :
    (∃ rest, exportCsvContent metrics
        = some (("frame,timestamp,api,scene,fps,cpu_ms,gpu_ms,vram_mb,draw_calls,triangles\n" : String)
            ++ rest)) ∧
    (∀ m ∈ metrics, m.gpu_ms = none →
        (metricRow m).getD 6 ("" : String) = ("N/A" : String)) ∧
    (∀ m ∈ metrics,
        twoDecimalFormat ((metricRow m).getD 4 ("" : String)) = true ∧
        twoDecimalFormat ((metricRow m).getD 5 ("" : String)) = true ∧
        ∀ v : ℚ, m.gpu_ms = some v →
          twoDecimalFormat ((metricRow m).getD 6 ("" : String)) = true) ∧
    (occursIn (("N/A" : String)).data demoNullCsv.data = true ∧
     occursIn (("null" : String)).data demoNullCsv.data = false ∧
     occursIn (("NaN" : String)).data demoNullCsv.data = false) := by
  refine ⟨?_, ?_, ?_, ?_⟩
  · refine ⟨String.join (metrics.map fun m =>
        String.intercalate ("," : String) (metricRow m) ++ ("\n" : String)), ?_⟩
    unfold exportCsvContent
    rw [if_neg (by simpa [List.isEmpty_iff] using h)]
    rw [String.append_assoc]
    congr 1
  · intro m _ hnone
    simp [metricRow, hnone]
  · intro m _
    refine ⟨?_, ?_, ?_⟩
    · simpa [metricRow] using twoDecimalFormat_toFixed2 m.fps
    · simpa [metricRow] using twoDecimalFormat_toFixed2 m.cpu_ms
    · intro v hv
      simpa [metricRow, hv] using twoDecimalFormat_toFixed2 v
  · rw [demoNullCsv_eq]
    refine ⟨by decide, by decide, by decide⟩

/-- Witness for C9 at the one-metric null-`gpu_ms` list. -/
theorem exportCsv_spec_witness :
    ([demoNullMetric] ≠ []) ∧
    ((∃ rest, exportCsvContent [demoNullMetric]
        = some (("frame,timestamp,api,scene,fps,cpu_ms,gpu_ms,vram_mb,draw_calls,triangles\n" : String)
            ++ rest)) ∧
    (∀ m ∈ [demoNullMetric], m.gpu_ms = none →
        (metricRow m).getD 6 ("" : String) = ("N/A" : String)) ∧
    (∀ m ∈ [demoNullMetric],
        twoDecimalFormat ((metricRow m).getD 4 ("" : String)) = true ∧
        twoDecimalFormat ((metricRow m).getD 5 ("" : String)) = true ∧
        ∀ v : ℚ, m.gpu_ms = some v →
          twoDecimalFormat ((metricRow m).getD 6 ("" : String)) = true) ∧
    (occursIn (("N/A" : String)).data demoNullCsv.data = true ∧
     occursIn (("null" : String)).data demoNullCsv.data = false ∧
     occursIn (("NaN" : String)).data demoNullCsv.data = false)) :=
  ⟨List.cons_ne_nil _ _, exportCsv_spec [demoNullMetric] (List.cons_ne_nil _ _)⟩

theorem filter_key_cons (l2 : List Nat) (k : Nat) (ks : List Nat) :
    (l2.filter fun q => q != k).filter (fun q => !(ks.contains q))
      = l2.filter fun q => !((k :: ks).contains q) := by
  rw [List.filter_filter]
  apply List.filter_congr
  intro a _
  by_cases h : a = k <;> simp [h, List.contains_cons, bne]

theorem filter_pairkey_cons (l2 : List (Nat × ℚ)) (k : Nat) (ks : List Nat) :
    (l2.filter fun p => p.1 != k).filter (fun p => !(ks.contains p.1))
      = l2.filter fun p => !((k :: ks).contains p.1) := by
  rw [List.filter_filter]
  apply List.filter_congr
  intro a _
  by_cases h : a.1 = k <;> simp [h, List.contains_cons, bne]

theorem pollFold_spec (env : GlPollEnv) (l : List (Nat × ℚ)) :
    ∀ acc : PollAcc,
      List.foldl (pollEntry env) acc l =
        { totalTime := acc.totalTime +
            ((l.filter (entryMatured env)).map fun e =>
              env.queryResult e.1 / 1000000).sum
          completedQueries :=
            acc.completedQueries + (l.filter (entryMatured env)).length
          st := { ext := acc.st.ext
                  queries := acc.st.queries.filter fun q =>
                    !((removedKeys env l).contains q)
                  queryPool := acc.st.queryPool
                    ++ (l.filter (entryMatured env)).map Prod.fst
                  pendingQueries := acc.st.pendingQueries.filter fun p =>
                    !((removedKeys env l).contains p.1)
                  nextQueryId := acc.st.nextQueryId } } := by
  induction l with
  | nil =>
    intro acc
    simp [removedKeys]
  | cons e l ih =>
    intro acc
    rw [List.foldl_cons, ih (pollEntry env acc e)]
    by_cases hy : env.now - e.2 < 2
    · have hs : entrySettled env e = false := by
        unfold entrySettled
        exact decide_eq_false (not_le.mpr hy)
      have hm : entryMatured env e = false := by
        simp [entryMatured, hs]
      have hr : entryRemoved env e = false := by
        simp [entryRemoved, hs]
      have hpe : pollEntry env acc e = acc := by
        simp [pollEntry, hy]
      rw [hpe]
      have hrk : removedKeys env (e :: l) = removedKeys env l := by
        simp [removedKeys, List.filter_cons, hr]
      have hfm : (e :: l).filter (entryMatured env) = l.filter (entryMatured env) := by
        simp [List.filter_cons, hm]
      rw [hrk, hfm]
    · rw [not_lt] at hy
      have hyn : ¬(env.now - e.2 < 2) := not_lt.mpr hy
      have hs : entrySettled env e = true := by
        unfold entrySettled
        exact decide_eq_true hy
      cases hav : env.available e.1 <;> cases hdis : env.disjoint e.1
      · -- not available, not disjoint: nothing happens to this entry
        have hm : entryMatured env e = false := by
          simp [entryMatured, hav]
        have hr : entryRemoved env e = false := by
          simp [entryRemoved, hav, hdis]
        have hpe : pollEntry env acc e = acc := by
          simp [pollEntry, hyn, hav, hdis]
        rw [hpe]
        have hrk : removedKeys env (e :: l) = removedKeys env l := by
          simp [removedKeys, List.filter_cons, hr]
        have hfm : (e :: l).filter (entryMatured env)
            = l.filter (entryMatured env) := by
          simp [List.filter_cons, hm]
        rw [hrk, hfm]
      · -- not available, disjoint: the handle is deleted
        have hm : entryMatured env e = false := by
          simp [entryMatured, hav]
        have hr : entryRemoved env e = true := by
          simp [entryRemoved, hs, hdis]
        have hpe : pollEntry env acc e =
            { totalTime := acc.totalTime
              completedQueries := acc.completedQueries
              st := { ext := acc.st.ext
                      queries := acc.st.queries.filter fun q => q != e.1
                      queryPool := acc.st.queryPool
                      pendingQueries :=
                        acc.st.pendingQueries.filter fun p => p.1 != e.1
                      nextQueryId := acc.st.nextQueryId } } := by
          simp [pollEntry, hyn, hav, hdis]
        rw [hpe]
        have hrk : removedKeys env (e :: l) = e.1 :: removedKeys env l := by
          simp [removedKeys, List.filter_cons, hr]
        have hfm : (e :: l).filter (entryMatured env)
            = l.filter (entryMatured env) := by
          simp [List.filter_cons, hm]
        rw [hrk, hfm]
        dsimp only
        rw [filter_key_cons, filter_pairkey_cons]
      · -- available, not disjoint: the entry matures
        have hm : entryMatured env e = true := by
          simp [entryMatured, hs, hav, hdis]
        have hr : entryRemoved env e = true := by
          simp [entryRemoved, hs, hav]
        have hpe : pollEntry env acc e =
            { totalTime := acc.totalTime + env.queryResult e.1 / 1000000
              completedQueries := acc.completedQueries + 1
              st := { ext := acc.st.ext
                      queries := acc.st.queries.filter fun q => q != e.1
                      queryPool := acc.st.queryPool ++ [e.1]
                      pendingQueries :=
                        acc.st.pendingQueries.filter fun p => p.1 != e.1
                      nextQueryId := acc.st.nextQueryId } } := by
          simp [pollEntry, hyn, hav, hdis]
        rw [hpe]
        have hrk : removedKeys env (e :: l) = e.1 :: removedKeys env l := by
          simp [removedKeys, List.filter_cons, hr]
        have hfm : (e :: l).filter (entryMatured env)
            = e :: l.filter (entryMatured env) := by
          simp [List.filter_cons, hm]
        rw [hrk, hfm]
        dsimp only
        simp only [List.map_cons]
        rw [List.sum_cons, List.length_cons,
          add_assoc acc.totalTime, Nat.add_assoc acc.completedQueries 1,
          Nat.add_comm 1 (l.filter (entryMatured env)).length,
          List.append_assoc, List.singleton_append,
          filter_key_cons, filter_pairkey_cons]
      · -- available and disjoint: matured branch is skipped, handle deleted
        have hm : entryMatured env e = false := by
          simp [entryMatured, hdis]
        have hr : entryRemoved env e = true := by
          simp [entryRemoved, hs, hav]
        have hpe : pollEntry env acc e =
            { totalTime := acc.totalTime
              completedQueries := acc.completedQueries
              st := { ext := acc.st.ext
                      queries := acc.st.queries.filter fun q => q != e.1
                      queryPool := acc.st.queryPool
                      pendingQueries :=
                        acc.st.pendingQueries.filter fun p => p.1 != e.1
                      nextQueryId := acc.st.nextQueryId } } := by
          simp [pollEntry, hyn, hav, hdis]
        rw [hpe]
        have hrk : removedKeys env (e :: l) = e.1 :: removedKeys env l := by
          simp [removedKeys, List.filter_cons, hr]
        have hfm : (e :: l).filter (entryMatured env)
            = l.filter (entryMatured env) := by
          simp [List.filter_cons, hm]
        rw [hrk, hfm]
        dsimp only
        rw [filter_key_cons, filter_pairkey_cons]

theorem matured_removed {env : GlPollEnv} {e : Nat × ℚ}
    (h : entryMatured env e = true) : entryRemoved env e = true := by
  unfold entryMatured at h
  unfold entryRemoved
  have h2 : (entrySettled env e = true ∧ env.available e.1 = true)
      ∧ env.disjoint e.1 = false := by simpa using h
  rw [h2.1.1, h2.1.2]
  simp

theorem contains_removedKeys (env : GlPollEnv) {l : List (Nat × ℚ)}
    (hnd : (l.map Prod.fst).Nodup) {p : Nat × ℚ} (hp : p ∈ l) :
    (removedKeys env l).contains p.1 = entryRemoved env p := by
  cases hrem : entryRemoved env p with
  | true =>
    have hmem : p.1 ∈ removedKeys env l := by
      unfold removedKeys
      exact List.mem_map_of_mem Prod.fst (List.mem_filter.mpr ⟨hp, hrem⟩)
    simpa using hmem
  | false =>
    have hnotmem : ¬(p.1 ∈ removedKeys env l) := by
      intro hmem
      unfold removedKeys at hmem
      rcases List.mem_map.mp hmem with ⟨e, hef, hfst⟩
      have hel : e ∈ l := (List.mem_filter.mp hef).1
      have herem : entryRemoved env e = true := (List.mem_filter.mp hef).2
      have heq : e = p := List.inj_on_of_nodup_map hnd hel hp hfst
      rw [heq, hrem] at herem
      exact Bool.false_ne_true herem
    simpa using hnotmem

theorem poll_components (env : GlPollEnv) (s : WebGLTimerState)
    (hext : s.ext = true) :
    (WebGLGpuTimer.poll env s).1 =
      (if 0 < (s.pendingQueries.filter (entryMatured env)).length then
          some (((s.pendingQueries.filter (entryMatured env)).map fun e =>
              env.queryResult e.1 / 1000000).sum
            / ((s.pendingQueries.filter (entryMatured env)).length : ℚ))
        else none) ∧
    (WebGLGpuTimer.poll env s).2 =
      { ext := s.ext
        queries := s.queries.filter fun q =>
          !((removedKeys env s.pendingQueries).contains q)
        queryPool := s.queryPool
          ++ (s.pendingQueries.filter (entryMatured env)).map Prod.fst
        pendingQueries := s.pendingQueries.filter fun p =>
          !((removedKeys env s.pendingQueries).contains p.1)
        nextQueryId := s.nextQueryId } := by
  unfold WebGLGpuTimer.poll
  rw [hext]
  simp only [Bool.not_true, Bool.false_eq_true, if_false]
  rw [pollFold_spec env s.pendingQueries ⟨0, 0, s⟩]
  dsimp only
  rw [hext]
  simp only [zero_add]
  exact ⟨trivial, trivial⟩

theorem poll_pending_eq (env : GlPollEnv) (s : WebGLTimerState)
    (hext : s.ext = true) (hnd : (s.pendingQueries.map Prod.fst).Nodup) :
    (WebGLGpuTimer.poll env s).2.pendingQueries
      = s.pendingQueries.filter fun p => !(entryRemoved env p) := by
  rw [(poll_components env s hext).2]
  dsimp only
  apply List.filter_congr
  intro p hp
  rw [contains_removedKeys env hnd hp]

/-- C3: a `WebGLGpuTimer.poll` call skips every pending entry younger
than the 2 ms settle delay (it stays in the pending map), and for every
matured entry (settled, available, not disjoint) it removes the entry
from the pending map and returns its handle to the reusable pool — the
new pool is the old pool extended with exactly the matured handles — and
it returns the mean of `QUERY_RESULT / 1e6` over the matured entries, or
null when none matured. -/
theorem webgl_poll_spec (env : GlPollEnv) (s : WebGLTimerState)
    (hext : s.ext = true)
    (hnd : (s.pendingQueries.map Prod.fst).Nodup) :
    (∀ e ∈ s.pendingQueries, env.now - e.2 < 2 →
        e ∈ (WebGLGpuTimer.poll env s).2.pendingQueries) ∧
    (∀ e ∈ s.pendingQueries, entryMatured env e = true →
        e ∉ (WebGLGpuTimer.poll env s).2.pendingQueries ∧
        e.1 ∈ (WebGLGpuTimer.poll env s).2.queryPool) ∧
    ((WebGLGpuTimer.poll env s).2.queryPool
      = s.queryPool
        ++ (s.pendingQueries.filter (entryMatured env)).map Prod.fst) ∧
    ((WebGLGpuTimer.poll env s).1 =
      if 0 < (s.pendingQueries.filter (entryMatured env)).length then
        some (((s.pendingQueries.filter (entryMatured env)).map fun e =>
            env.queryResult e.1 / 1000000).sum
          / ((s.pendingQueries.filter (entryMatured env)).length : ℚ))
      else none) := by
  obtain ⟨h1, h2⟩ := poll_components env s hext
  have hpend := poll_pending_eq env s hext hnd
  refine ⟨?_, ?_, ?_, h1⟩
  · intro e he hyoung
    rw [hpend]
    refine List.mem_filter.mpr ⟨he, ?_⟩
    have hs : entrySettled env e = false := by
      unfold entrySettled
      exact decide_eq_false (not_le.mpr hyoung)
    have hr : entryRemoved env e = false := by
      simp [entryRemoved, hs]
    simp [hr]
  · intro e he hmat
    constructor
    · rw [hpend]
      intro hmm
      have hkept := (List.mem_filter.mp hmm).2
      rw [matured_removed hmat] at hkept
      simp at hkept
    · rw [h2]
      dsimp only
      exact List.mem_append.mpr (Or.inr
        (List.mem_map_of_mem Prod.fst (List.mem_filter.mpr ⟨he, hmat⟩)))
  · rw [h2]

/-- Witness for C3: a single settled, available, non-disjoint pending
query with a 3 ms raw duration. -/
theorem webgl_poll_spec_witness :
    demoGlState.ext = true ∧
    (demoGlState.pendingQueries.map Prod.fst).Nodup ∧
    ((∀ e ∈ demoGlState.pendingQueries, demoGlEnv.now - e.2 < 2 →
        e ∈ (WebGLGpuTimer.poll demoGlEnv demoGlState).2.pendingQueries) ∧
    (∀ e ∈ demoGlState.pendingQueries, entryMatured demoGlEnv e = true →
        e ∉ (WebGLGpuTimer.poll demoGlEnv demoGlState).2.pendingQueries ∧
        e.1 ∈ (WebGLGpuTimer.poll demoGlEnv demoGlState).2.queryPool) ∧
    ((WebGLGpuTimer.poll demoGlEnv demoGlState).2.queryPool
      = demoGlState.queryPool
        ++ (demoGlState.pendingQueries.filter
            (entryMatured demoGlEnv)).map Prod.fst) ∧
    ((WebGLGpuTimer.poll demoGlEnv demoGlState).1 =
      if 0 < (demoGlState.pendingQueries.filter
          (entryMatured demoGlEnv)).length then
        some (((demoGlState.pendingQueries.filter
              (entryMatured demoGlEnv)).map fun e =>
            demoGlEnv.queryResult e.1 / 1000000).sum
          / ((demoGlState.pendingQueries.filter
              (entryMatured demoGlEnv)).length : ℚ))
      else none)) :=
  ⟨rfl, by decide, webgl_poll_spec demoGlEnv demoGlState rfl (by decide)⟩

/-- C4: when `poll` observes the disjoint flag on a settled pending query,
the handle is discarded, not returned to the pool: the new pool contains
only the old handles plus the matured (non-disjoint) handles, so its size
does not grow from the discarded handle; the entry is removed from the
pending map; and it is not among the matured entries whose values are
averaged into the returned result. -/
theorem webgl_poll_disjoint_discard (env : GlPollEnv) (s : WebGLTimerState)
    (hext : s.ext = true) (hnd : (s.pendingQueries.map Prod.fst).Nodup)
    (q : Nat) (t : ℚ) (hmem : (q, t) ∈ s.pendingQueries)
    (hsettle : 2 ≤ env.now - t) (hdis : env.disjoint q = true)
    (hpool : q ∉ s.queryPool) :
    q ∉ (WebGLGpuTimer.poll env s).2.queryPool ∧
    (WebGLGpuTimer.poll env s).2.queryPool.length
      = s.queryPool.length
        + (s.pendingQueries.filter (entryMatured env)).length ∧
    (∀ t2 : ℚ, (q, t2) ∉ (WebGLGpuTimer.poll env s).2.pendingQueries) ∧
    (q, t) ∉ s.pendingQueries.filter (entryMatured env) ∧
    ((WebGLGpuTimer.poll env s).1 =
      if 0 < (s.pendingQueries.filter (entryMatured env)).length then
        some (((s.pendingQueries.filter (entryMatured env)).map fun e =>
            env.queryResult e.1 / 1000000).sum
          / ((s.pendingQueries.filter (entryMatured env)).length : ℚ))
      else none) := by
  obtain ⟨h1, h2⟩ := poll_components env s hext
  have hmat : entryMatured env (q, t) = false := by
    unfold entryMatured
    rw [hdis]
    simp
  have hnotfilter : (q, t) ∉ s.pendingQueries.filter (entryMatured env) := by
    intro hmm
    have := (List.mem_filter.mp hmm).2
    rw [hmat] at this
    exact Bool.false_ne_true this
  refine ⟨?_, ?_, ?_, hnotfilter, h1⟩
  · rw [h2]
    dsimp only
    intro hq
    rcases List.mem_append.mp hq with hq1 | hq2
    · exact hpool hq1
    · rcases List.mem_map.mp hq2 with ⟨e, hef, hfst⟩
      have hel : e ∈ s.pendingQueries := (List.mem_filter.mp hef).1
      have hemat : entryMatured env e = true := (List.mem_filter.mp hef).2
      have heq : e = (q, t) := List.inj_on_of_nodup_map hnd hel hmem (by rw [hfst])
      rw [heq, hmat] at hemat
      exact Bool.false_ne_true hemat
  · rw [h2]
    dsimp only
    rw [List.length_append, List.length_map]
  · intro t2
    rw [poll_pending_eq env s hext hnd]
    intro hmm
    have hin := (List.mem_filter.mp hmm).1
    have hkept := (List.mem_filter.mp hmm).2
    have heq : ((q, t2) : Nat × ℚ) = (q, t) :=
      List.inj_on_of_nodup_map hnd hin hmem rfl
    have hrem : entryRemoved env (q, t) = true := by
      unfold entryRemoved
      have hs : entrySettled env (q, t) = true := by
        unfold entrySettled
        exact decide_eq_true hsettle
      rw [hs, hdis]
      simp
    rw [heq, hrem] at hkept
    simp at hkept

/-- Witness for C4: a single settled pending query on which the disjoint
flag is observed; the pool stays empty. -/
theorem webgl_poll_disjoint_discard_witness :
    demoGlState.ext = true ∧
    (demoGlState.pendingQueries.map Prod.fst).Nodup ∧
    ((0, (1 : ℚ)) ∈ demoGlState.pendingQueries) ∧
    (2 ≤ demoGlDisjointEnv.now - 1) ∧
    (demoGlDisjointEnv.disjoint 0 = true) ∧
    (0 ∉ demoGlState.queryPool) ∧
    (0 ∉ (WebGLGpuTimer.poll demoGlDisjointEnv demoGlState).2.queryPool ∧
    (WebGLGpuTimer.poll demoGlDisjointEnv demoGlState).2.queryPool.length
      = demoGlState.queryPool.length
        + (demoGlState.pendingQueries.filter
            (entryMatured demoGlDisjointEnv)).length ∧
    (∀ t2 : ℚ, (0, t2) ∉
        (WebGLGpuTimer.poll demoGlDisjointEnv demoGlState).2.pendingQueries) ∧
    ((0, (1 : ℚ)) ∉ demoGlState.pendingQueries.filter
        (entryMatured demoGlDisjointEnv)) ∧
    ((WebGLGpuTimer.poll demoGlDisjointEnv demoGlState).1 =
      if 0 < (demoGlState.pendingQueries.filter
          (entryMatured demoGlDisjointEnv)).length then
        some (((demoGlState.pendingQueries.filter
              (entryMatured demoGlDisjointEnv)).map fun e =>
            demoGlDisjointEnv.queryResult e.1 / 1000000).sum
          / ((demoGlState.pendingQueries.filter
              (entryMatured demoGlDisjointEnv)).length : ℚ))
      else none)) :=
  ⟨rfl, by decide, List.mem_singleton.mpr rfl,
    by norm_num [demoGlDisjointEnv], rfl, List.not_mem_nil _,
    webgl_poll_disjoint_discard demoGlDisjointEnv demoGlState rfl (by decide)
      0 1 (List.mem_singleton.mpr rfl) (by norm_num [demoGlDisjointEnv]) rfl
      (List.not_mem_nil _)⟩

end GpuBench
